import Mathlib

/-!
Shallow embedding of the decorator-pattern demos in
TheMaverickProgrammer/C-Python-like-Decorators.

Modelling conventions:
* C++ `double`/`float` values are modelled as `Rat`; all arithmetic used by
  the demos (`*`, `/`, comparisons) is exact on the demo inputs.
* a thrown C++ exception is modelled by the `CppExc` inductive, and a call
  that may throw is a function into `Except CppExc T`;
* console printing and wall-clock time are modelled by the clocked writer
  type `Eff T`: a computation takes the current time (a natural number),
  and yields its result, the time when it finishes, and the list of lines
  it printed, in order.
-/

/-- Model of a C++ exception object in flight: an `std::iostream::failure`
(with its `what()` string), any other `std::exception` (with its `what()`
string), or a non-`std::exception` throw (caught only by `catch(...)`). -/
inductive CppExc where
  | iosFailure (what : String)
  | stdExc (what : String)
  | other
deriving DecidableEq, Repr

/-- Computation observed through the console sink and the clock: given the
time at which it starts, it produces a result, the time at which it ends,
and the lines it printed. -/
abbrev Eff (T : Type) := Nat → T × Nat × List String

/-- Embedding of `optional_type<T>` from better_member_func.cpp lines 22-31
(member_func.cpp lines 21-30 is the same structure with move-semantics
constructors): a value, two flags, and a message string. -/
structure optional_type (T : Type) where
  value : T
  OK : Bool
  BAD : Bool
  msg : String
deriving DecidableEq, Repr

/-- Embedding of the constructor `optional_type(T t)` : stores the value and
sets `OK = true`, `BAD = false`; `msg` is default-constructed (empty). -/
def optional_type.ofValue {T : Type} (t : T) : optional_type T :=
  { value := t, OK := true, BAD := false, msg := "" }

/-- Embedding of the constructor `optional_type(bool ok, std::string msg)` :
stores the message and sets `OK = ok`, `BAD = !ok`; the `value` field is
left default-initialized, modelled by `Inhabited.default`. -/
def optional_type.ofFlag {T : Type} [Inhabited T] (ok : Bool) (msg : String) :
    optional_type T :=
  { value := default, OK := ok, BAD := !ok, msg := msg }

/-- Modelled from the spec: the spec (§4.1) says extracting the value of a
Result is "valid only when Success; extracting on Failure is a programming
error — document as fails with InvalidState".  No such extraction exists in
the source (the field is read directly), so the failing extraction is
modelled here from the spec's words, for comparison with the source's plain
field access `optional_type.value`. -/
def extract_value_spec {T : Type} (o : optional_type T) : Except String T :=
  if o.OK then Except.ok o.value else Except.error ("InvalidState")

namespace BetterMemberFunc

/-- Message produced by the catch clauses of `exception_fail_safe`
(better_member_func.cpp lines 45-52): `e.what()` for `iostream::failure`
and for `std::exception`, the fixed default string for `catch(...)`. -/
def handler_msg : CppExc → String
  | CppExc.iosFailure w => w
  | CppExc.stdExc w => w
  | CppExc.other => "Exception caught: default exception"

/-- Embedding of `exception_fail_safe` from better_member_func.cpp lines
38-54 (member_func.cpp lines 37-54 is identical up to perfect forwarding):
invoke the inner callable; wrap a normal return in the value constructor of
`optional_type`, and convert each caught exception to the failure
constructor with the corresponding message.  The inner callable may itself
print and consume time, so it lives in `Eff`. -/
def exception_fail_safe {α T : Type} [Inhabited T]
    (func : α → Eff (Except CppExc T)) : α → Eff (optional_type T) :=
  fun args clock =>
    match func args clock with
    | (Except.ok v, c, out) => (optional_type.ofValue v, c, out)
    | (Except.error (CppExc.iosFailure e), c, out) =>
        (optional_type.ofFlag false e, c, out)
    | (Except.error (CppExc.stdExc e), c, out) =>
        (optional_type.ofFlag false e, c, out)
    | (Except.error CppExc.other, c, out) =>
        (optional_type.ofFlag false ("Exception caught: default exception"), c, out)

/-- Rendered line of `output` (better_member_func.cpp lines 62-66): the
error line when the carrier is BAD, otherwise the value line. -/
def render {T : Type} [ToString T] (opt : optional_type T) : String :=
  if opt.BAD then "There was an error: " ++ opt.msg
  else "Bag cost $" ++ toString opt.value

/-- Embedding of `output` from better_member_func.cpp lines 57-70: invoke
the inner callable, print one line describing the carrier it returned, and
return that carrier unchanged. -/
def output {α T : Type} [ToString T]
    (func : α → Eff (optional_type T)) : α → Eff (optional_type T) :=
  fun args clock =>
    let r := func args clock
    (r.1, r.2.1, r.2.2 ++ [render r.1])

/-- Embedding of `log_time` from better_member_func.cpp lines 75-85
(member_func.cpp lines 63-71 and practical.cpp lines 159-167 order the same
three steps identically): capture the current time, then invoke the inner
callable, then print the captured time, then return the inner result. -/
def log_time {α T : Type} (func : α → Eff T) : α → Eff T :=
  fun args clock =>
    let time := clock
    let r := func args clock
    (r.1, r.2.1, r.2.2 ++ ["> Logged at " ++ toString time])

/-- Embedding of the `apples` class (better_member_func.cpp lines 90-106). -/
structure apples where
  cost_per_apple : Rat
deriving DecidableEq, Repr

/-- Embedding of `apples::calculate_cost` (better_member_func.cpp lines
95-103): throws a `runtime_error` (a `std::exception`) when `count <= 0` or
`weight <= 0`, otherwise returns `count*weight*cost_per_apple`. -/
def apples.calculate_cost (self : apples) (count : Int) (weight : Rat) :
    Except CppExc Rat :=
  if count ≤ 0 then Except.error (CppExc.stdExc ("must have 1 or more apples"))
  else if weight ≤ 0 then
    Except.error (CppExc.stdExc ("apples must weigh more than 0 ounces"))
  else Except.ok (count * weight * self.cost_per_apple)

/-- Embedding of `visit_apples` (better_member_func.cpp lines 112-117)
applied to the member pointer `&apples::calculate_cost`: take the receiver
first, forward the remaining arguments to the member function.  The member
function prints nothing and its running time is not observed, so its call
is lifted into `Eff` with an empty trace. -/
def visit_apples (func : apples → Int → Rat → Except CppExc Rat) :
    apples × Int × Rat → Eff (Except CppExc Rat) :=
  fun p clock => (func p.1 p.2.1 p.2.2, clock, [])

/-- Embedding of the composed decorated function `get_cost`
(better_member_func.cpp line 123). -/
def get_cost : apples × Int × Rat → Eff (optional_type Rat) :=
  log_time (output (exception_fail_safe (visit_apples apples.calculate_cost)))

end BetterMemberFunc

namespace Example

/-- Embedding of `divide_impl` from example.cpp lines 61-63. -/
def divide_impl (a b : Rat) : Rat := a / b

/-- Embedding of `smart_divide` from example.cpp lines 31-43: always print
the announcement line; when the divisor is zero print the guard line and
return `0.0f` without invoking the inner callable, otherwise return the
inner callable's result.  The wrapped callable is pure here (as in the
demo), so the result is the returned value paired with the printed lines. -/
def smart_divide (func : Rat → Rat → Rat) : Rat × Rat → Rat × List String :=
  fun p =>
    let a := p.1
    let b := p.2
    let announce := "I am going to divide a=" ++ toString a ++ " and b=" ++ toString b
    if b = 0 then (0, [announce, "Whoops! cannot divide"])
    else (func a b, [announce])

end Example

namespace Practical

/-- Embedding of `exception_fail_safe` from practical.cpp lines 19-33: the
string-returning variant.  It invokes the inner callable discarding its
result; a caught `iostream::failure` yields "Exception caught: " plus its
`what()` string, any other exception falls to `catch(...)` (there is no
`std::exception` clause in this file) and yields the default string; a
normal return yields "OK". -/
def exception_fail_safe {α T : Type} (func : α → Except CppExc T) :
    α → String :=
  fun args =>
    match func args with
    | Except.ok _ => "OK"
    | Except.error (CppExc.iosFailure e) => "Exception caught: " ++ e
    | Except.error (CppExc.stdExc _) => "Exception caught: default exception"
    | Except.error CppExc.other => "Exception caught: default exception"

/-- Embedding of `file_read_impl` from practical.cpp lines 173-177: always
throws `std::iostream::failure` with message `path + " not found!"`. -/
def file_read_impl (path : String) : Except CppExc Unit :=
  Except.error (CppExc.iosFailure (path ++ " not found!"))

end Practical

/-- Clocked computation used to observe the timing wrapper: the inner
callable consumes one unit of time and prints nothing. -/
def tick : Unit → Eff Nat :=
  fun _ clock => (0, clock + 1, [])

/-- Embedding of `smart_divide(divide_impl)` from example.cpp lifted into a
clocked computation, so that it can be wrapped by the fail-safe decorator of
better_member_func.cpp: it never throws, and its printed lines are those of
`smart_divide`. -/
def smart_divide_clocked : Rat × Rat → Eff (Except CppExc Rat) :=
  fun p clock =>
    let r := Example.smart_divide Example.divide_impl p
    (Except.ok r.1, clock, r.2)

/-- C1: for every inner callable and every argument list (and start time) on
which the inner callable returns normally with value `v`, the fail-safe
wrapper returns a carrier in the Success state whose carried value is `v`,
and leaves the inner callable's printed lines and finish time unchanged. -/
theorem C1_fail_safe_success {α T : Type} [Inhabited T]
    (func : α → Eff (Except CppExc T)) (args : α) (clock : Nat)
    (v : T) (c : Nat) (out : List String)
    (h : func args clock = (Except.ok v, c, out)) :
    BetterMemberFunc.exception_fail_safe func args clock =
      (optional_type.ofValue v, c, out) ∧
    (BetterMemberFunc.exception_fail_safe func args clock).1.OK = true ∧
    (BetterMemberFunc.exception_fail_safe func args clock).1.value = v := by
  have key : BetterMemberFunc.exception_fail_safe func args clock =
      (optional_type.ofValue v, c, out) := by
    simp only [BetterMemberFunc.exception_fail_safe, h]
  exact ⟨key, by rw [key]; rfl, by rw [key]; rfl⟩

/-- C1 witness: a concrete inner callable that returns 7 normally. -/
theorem C1_fail_safe_success_witness :
    BetterMemberFunc.exception_fail_safe
      (fun (_ : Unit) (clock : Nat) =>
        ((Except.ok 7 : Except CppExc Nat), clock, ([] : List String))) () 0 =
      (optional_type.ofValue 7, 0, []) ∧
    (BetterMemberFunc.exception_fail_safe
      (fun (_ : Unit) (clock : Nat) =>
        ((Except.ok 7 : Except CppExc Nat), clock, ([] : List String))) () 0).1.OK = true ∧
    (BetterMemberFunc.exception_fail_safe
      (fun (_ : Unit) (clock : Nat) =>
        ((Except.ok 7 : Except CppExc Nat), clock, ([] : List String))) () 0).1.value = 7 :=
  C1_fail_safe_success _ () 0 7 0 [] rfl

/-- C2: for every inner callable and every argument list on which the inner
callable raises, the fail-safe wrapper returns normally (the embedding is a
total function into `optional_type`, so the exception never propagates) with
a carrier in the Failure state whose message is the caught exception's
`what()` string when it is a `std::exception`, else the default string. -/
theorem C2_fail_safe_failure {α T : Type} [Inhabited T]
    (func : α → Eff (Except CppExc T)) (args : α) (clock : Nat)
    (e : CppExc) (c : Nat) (out : List String)
    (h : func args clock = (Except.error e, c, out)) :
    BetterMemberFunc.exception_fail_safe func args clock =
      (optional_type.ofFlag false (BetterMemberFunc.handler_msg e), c, out) ∧
    (BetterMemberFunc.exception_fail_safe func args clock).1.BAD = true := by
  have key : BetterMemberFunc.exception_fail_safe func args clock =
      (optional_type.ofFlag false (BetterMemberFunc.handler_msg e), c, out) := by
    cases e <;>
      simp only [BetterMemberFunc.exception_fail_safe, BetterMemberFunc.handler_msg, h]
  exact ⟨key, by rw [key]; rfl⟩

/-- C2 witness: the member-function target raising on weight 0 through the
argument-adapting wrapper, with the apples object priced at 1.09. -/
theorem C2_fail_safe_failure_witness :
    BetterMemberFunc.exception_fail_safe
      (BetterMemberFunc.visit_apples BetterMemberFunc.apples.calculate_cost)
      (⟨(109 : Rat)/100⟩, 4, 0) 0 =
      (optional_type.ofFlag false
        (BetterMemberFunc.handler_msg
          (CppExc.stdExc ("apples must weigh more than 0 ounces"))), 0, []) ∧
    (BetterMemberFunc.exception_fail_safe
      (BetterMemberFunc.visit_apples BetterMemberFunc.apples.calculate_cost)
      (⟨(109 : Rat)/100⟩, 4, 0) 0).1.BAD = true :=
  C2_fail_safe_failure _ _ 0
    (CppExc.stdExc ("apples must weigh more than 0 ounces")) 0 [] (by rfl)

/-- C3: the output wrapper is pass-through: the carrier it returns is the
carrier the inner callable produced; it appends exactly one rendered line
for it; and applying the wrapper twice appends two identical rendered lines
while the returned carrier is still unchanged (idempotent observation). -/
theorem C3_output_pass_through {α T : Type} [ToString T]
    (func : α → Eff (optional_type T)) (args : α) (clock : Nat) :
    (BetterMemberFunc.output func args clock).1 = (func args clock).1 ∧
    BetterMemberFunc.output func args clock =
      ((func args clock).1, (func args clock).2.1,
        (func args clock).2.2 ++ [BetterMemberFunc.render (func args clock).1]) ∧
    BetterMemberFunc.output (BetterMemberFunc.output func) args clock =
      ((func args clock).1, (func args clock).2.1,
        (func args clock).2.2 ++
          [BetterMemberFunc.render (func args clock).1,
           BetterMemberFunc.render (func args clock).1]) := by
  refine ⟨rfl, rfl, ?_⟩
  simp [BetterMemberFunc.output, List.append_assoc]

/-- C4 counterexample: the demo timing wrappers do not capture their
timestamp after the inner invocation.  With an inner callable that consumes
one unit of time starting at time 0, the wrapper renders timestamp 0 — the
time immediately before the invocation — while the time immediately after
the invocation is 1, and the two rendered timestamp lines differ. -/
theorem C4_counterexample :
    (BetterMemberFunc.log_time tick () 0).2.2 = ["> Logged at 0"] ∧
    (tick () 0).2.1 = 1 ∧
    ("> Logged at 0" : String) ≠ "> Logged at 1" := by
  exact ⟨rfl, rfl, by decide⟩

/-- C4 amended: the timing wrapper captures its timestamp immediately
before the inner callable's invocation (the time at which the wrapper is
entered), invokes the inner callable exactly once, and then renders the
captured timestamp to the sink after the inner callable's own lines. -/
theorem C4_log_time_captures_before {α T : Type}
    (func : α → Eff T) (args : α) (clock : Nat) :
    BetterMemberFunc.log_time func args clock =
      ((func args clock).1, (func args clock).2.1,
        (func args clock).2.2 ++ ["> Logged at " ++ toString clock]) := rfl

/-- C5: composing Timing(Output(FailSafe(adapted target))) — the composed
`get_cost` of better_member_func.cpp — and invoking it with arguments that
make `calculate_cost` raise prints exactly one rendered error line followed
by exactly one rendered timestamp line, in that order. -/
theorem C5_pipeline_error_then_time
    (g : BetterMemberFunc.apples) (count : Int) (weight : Rat) (clock : Nat)
    (e : CppExc) (h : g.calculate_cost count weight = Except.error e) :
    (BetterMemberFunc.get_cost (g, count, weight) clock).2.2 =
      ["There was an error: " ++ BetterMemberFunc.handler_msg e,
       "> Logged at " ++ toString clock] := by
  cases e <;>
    simp [BetterMemberFunc.get_cost, BetterMemberFunc.log_time,
      BetterMemberFunc.output, BetterMemberFunc.exception_fail_safe,
      BetterMemberFunc.visit_apples, BetterMemberFunc.render,
      BetterMemberFunc.handler_msg, h, optional_type.ofFlag]

/-- C5 witness: apples priced at 1.09 with count 4 and weight 0 make the
target raise, and the sink receives the error line then the time line. -/
theorem C5_pipeline_error_then_time_witness :
    (BetterMemberFunc.get_cost (⟨(109 : Rat)/100⟩, 4, 0) 0).2.2 =
      ["There was an error: " ++
        BetterMemberFunc.handler_msg
          (CppExc.stdExc ("apples must weigh more than 0 ounces")),
       "> Logged at " ++ toString 0] :=
  C5_pipeline_error_then_time ⟨(109 : Rat)/100⟩ 4 0 0
    (CppExc.stdExc ("apples must weigh more than 0 ounces")) (by rfl)

/-- C6: concrete scenarios.  The fail-safe wrapper around the
divide-by-zero-guarding callable applied to (12.0, 3.0) yields
Success with value 4.0; around the adapted member function that raises
"apples must weigh more than 0 ounces" at (4, 0) it yields Failure
carrying that exact message. -/
theorem C6_concrete_scenarios :
    ((BetterMemberFunc.exception_fail_safe smart_divide_clocked (12, 3) 0).1.OK
        = true ∧
      (BetterMemberFunc.exception_fail_safe smart_divide_clocked (12, 3) 0).1.value
        = 4) ∧
    ((BetterMemberFunc.exception_fail_safe
        (BetterMemberFunc.visit_apples BetterMemberFunc.apples.calculate_cost)
        (⟨(109 : Rat)/100⟩, 4, 0) 0).1.BAD = true ∧
      (BetterMemberFunc.exception_fail_safe
        (BetterMemberFunc.visit_apples BetterMemberFunc.apples.calculate_cost)
        (⟨(109 : Rat)/100⟩, 4, 0) 0).1.msg
        = "apples must weigh more than 0 ounces") := by
  refine ⟨⟨rfl, ?_⟩, rfl, rfl⟩
  show Example.divide_impl 12 3 = 4
  show (12 : Rat) / 3 = 4
  norm_num

/-- C7 counterexample: the carrier constructed in the Failure state with
message "boom" admits value extraction anyway: reading the `value` field
succeeds and yields the default-initialized value (0 for the numeric
payload), instead of failing with the InvalidState error that the
spec-modelled extraction `extract_value_spec` prescribes. -/
theorem C7_counterexample :
    (optional_type.ofFlag false ("boom") : optional_type Rat).BAD = true ∧
    (optional_type.ofFlag false ("boom") : optional_type Rat).value = 0 ∧
    extract_value_spec (optional_type.ofFlag false ("boom") : optional_type Rat) =
      Except.error ("InvalidState") ∧
    Except.ok (optional_type.ofFlag false ("boom") : optional_type Rat).value ≠
      extract_value_spec (optional_type.ofFlag false ("boom") : optional_type Rat) := by
  refine ⟨rfl, rfl, rfl, ?_⟩
  intro hcontra
  simp [extract_value_spec, optional_type.ofFlag] at hcontra

/-- C7 amended: which variant a carrier holds is queryable through its OK
and BAD flags; the `value` and `msg` fields are plain total accessors that
never fail: on a Success carrier `value` is the stored value and `msg` is
empty, and on a Failure carrier `msg` is the stored message while `value`
is the default-initialized value rather than an InvalidState error. -/
theorem C7_accessors {T : Type} [Inhabited T] (v : T) (m : String) (ok : Bool) :
    (optional_type.ofValue v).value = v ∧
    (optional_type.ofValue v).msg = "" ∧
    (optional_type.ofFlag false m : optional_type T).value = default ∧
    (optional_type.ofFlag false m : optional_type T).msg = m ∧
    (optional_type.ofFlag ok m : optional_type T).OK = ok ∧
    (optional_type.ofFlag ok m : optional_type T).BAD = !ok :=
  ⟨rfl, rfl, rfl, rfl, rfl, rfl⟩

/-- C8: every carrier built by either constructor holds exactly one
populated variant: its OK flag is the negation of its BAD flag, so the two
are never both set and never both clear.  (The embedding, like the source,
defines no operation that writes to a carrier after construction, so there
is nothing that could mutate one.) -/
theorem C8_exactly_one_variant {T : Type} [Inhabited T] (v : T) (ok : Bool) (m : String) :
    (optional_type.ofValue v).OK = !(optional_type.ofValue v).BAD ∧
    (optional_type.ofFlag ok m : optional_type T).OK =
      !(optional_type.ofFlag ok m : optional_type T).BAD := by
  constructor
  · rfl
  · cases ok <;> rfl

/-- C9: the guarded divider returns 0.0 on a zero divisor without invoking
the inner callable — its result there does not depend on the inner callable
at all — and on every nonzero divisor it returns the inner callable's
result. -/
theorem C9_smart_divide_guard (F G : Rat → Rat → Rat) (a b : Rat) :
    (Example.smart_divide F (a, 0)).1 = 0 ∧
    Example.smart_divide F (a, 0) = Example.smart_divide G (a, 0) ∧
    (b ≠ 0 → (Example.smart_divide F (a, b)).1 = F a b) := by
  refine ⟨?_, ?_, fun hb => ?_⟩
  · simp [Example.smart_divide]
  · simp [Example.smart_divide]
  · simp [Example.smart_divide, hb]

/-- C9 witness: with the real division target, dividing by 0 yields 0 and
dividing 12 by the nonzero 3 invokes the target. -/
theorem C9_smart_divide_guard_witness :
    (Example.smart_divide Example.divide_impl (12, 0)).1 = 0 ∧
    ((3 : Rat) ≠ 0 ∧
      (Example.smart_divide Example.divide_impl (12, 3)).1 =
        Example.divide_impl 12 3) :=
  ⟨(C9_smart_divide_guard Example.divide_impl Example.divide_impl 12 3).1,
   by decide,
   (C9_smart_divide_guard Example.divide_impl Example.divide_impl 12 3).2.2
     (by decide)⟩

/-- C10: the string-returning fail-safe variant returns exactly "OK" on
every normal return of the inner callable, whatever value it returned (the
value is discarded), and on every raised exception it returns a string that
begins with "Exception caught: ". -/
theorem C10_string_fail_safe {α T : Type} (func : α → Except CppExc T)
    (args : α) :
    (∀ v, func args = Except.ok v →
      Practical.exception_fail_safe func args = "OK") ∧
    (∀ e, func args = Except.error e →
      ∃ rest, Practical.exception_fail_safe func args =
        "Exception caught: " ++ rest) := by
  constructor
  · intro v h
    simp [Practical.exception_fail_safe, h]
  · intro e h
    cases e with
    | iosFailure w =>
        exact ⟨w, by simp [Practical.exception_fail_safe, h]⟩
    | stdExc w =>
        exact ⟨"default exception", by simp [Practical.exception_fail_safe, h]⟩
    | other =>
        exact ⟨"default exception", by simp [Practical.exception_fail_safe, h]⟩

/-- C10 witness: a normally returning inner callable yields "OK", and the
always-failing file read yields a string beginning with the prefix. -/
theorem C10_string_fail_safe_witness :
    Practical.exception_fail_safe (fun (_ : Unit) => (Except.ok 5 : Except CppExc Nat)) () = "OK" ∧
    (∃ rest, Practical.exception_fail_safe Practical.file_read_impl ("missing_file.txt") =
      "Exception caught: " ++ rest) :=
  ⟨(C10_string_fail_safe (fun (_ : Unit) => (Except.ok 5 : Except CppExc Nat)) ()).1 5 rfl,
   (C10_string_fail_safe Practical.file_read_impl ("missing_file.txt")).2
     (CppExc.iosFailure ("missing_file.txt not found!")) rfl⟩
